import Mathlib

/-!
Verification of the trajectory-generator orchestration node
(`src/traj_generator/traj_generator.py`).

The node drives a scripted five-step sequence over ROS 2 primitives:
set initial pose (service call), publish a `People` message, submit a
`ComputePathThroughPoses` goal, forward its result as a `SmoothPath` goal,
and publish the smoothed path to `/plan` before destroying the node and
shutting the context down.  Each step after the first two is triggered by
the completion callback of the previous one.

Shallow embedding: the external world's choices in one run — the clock
reading used for the `People` stamp, whether each action server reports
available within its bounded wait, whether each goal is accepted, and the
result payloads — are collected in an `Env`.  Every method of the node
becomes a function emitting the list of observable events it performs
(log lines, the service request, published messages, submitted goals,
received notifications, node destruction).  Because the executor is
single-threaded and each callback is registered on the future produced by
the immediately preceding dispatch, the run's event trace is the sequential
composition of the dispatch events with the chained callback's events; a
callback's trace begins with the receipt of the notification that fired it.
The path artifact is opaque to the node, so the embedding is polymorphic in
the artifact type `P`.

Numeric literals are modelled as rationals: the source only assigns and
copies them (no arithmetic), so value identity is preserved exactly.
-/

namespace TrajGen

/-- Coordinate triple (`geometry_msgs` Point / Vector3); message default is all zeros. -/
structure Vec3 where
  x : ℚ
  y : ℚ
  z : ℚ
deriving DecidableEq, Repr

/-- Quaternion (`geometry_msgs` Quaternion). -/
structure Quaternion where
  x : ℚ
  y : ℚ
  z : ℚ
  w : ℚ
deriving DecidableEq, Repr

/-- Message-level default of `Vec3`: all fields zero. -/
def Vec3.msgDefault : Vec3 := { x := 0, y := 0, z := 0 }

/-- Message-level default of a ROS 2 Quaternion: x = y = z = 0, w = 1. -/
def Quaternion.msgDefault : Quaternion := { x := 0, y := 0, z := 0, w := 1 }

/-- Timestamp message (`builtin_interfaces` Time); default is zero. -/
structure TimeMsg where
  sec : Nat
  nanosec : Nat
deriving DecidableEq, Repr

/-- Message-level default timestamp. -/
def TimeMsg.msgDefault : TimeMsg := { sec := 0, nanosec := 0 }

/-- Message header: frame id plus stamp (`std_msgs` Header). -/
structure Header where
  frame_id : String
  stamp : TimeMsg
deriving DecidableEq, Repr

/-- Pose: position plus quaternion (`geometry_msgs` Pose). -/
structure Pose where
  position : Vec3
  orientation : Quaternion
deriving DecidableEq, Repr

/-- Stamped pose (`geometry_msgs` PoseStamped). -/
structure PoseStamped where
  header : Header
  pose : Pose
deriving DecidableEq, Repr

/-- Pose with a row-major 6x6 covariance (`geometry_msgs` PoseWithCovariance). -/
structure PoseWithCovariance where
  pose : Pose
  covariance : List ℚ
deriving DecidableEq, Repr

/-- Stamped pose with covariance (`geometry_msgs` PoseWithCovarianceStamped). -/
structure PoseWithCovarianceStamped where
  header : Header
  pose : PoseWithCovariance
deriving DecidableEq, Repr

/-- Request of the `nav2_msgs/srv/SetInitialPose` service. -/
structure SetInitialPoseRequest where
  pose : PoseWithCovarianceStamped
deriving DecidableEq, Repr

/-- One person entry of a `people_msgs/People` message. -/
structure Person where
  name : String
  position : Vec3
  velocity : Vec3
deriving DecidableEq, Repr

/-- The `people_msgs/People` message: header plus list of persons. -/
structure People where
  header : Header
  people : List Person
deriving DecidableEq, Repr

/-- Request built by `set_initial_pose` (source lines 34-51): frame "map",
position (0, 4, 0.01), orientation (0, 0, -0.7071068, 0.7071068), covariance
0.25 at the x-variance slot (index 0) and the y-variance slot (index 7),
zero elsewhere.  The header stamp is never assigned, so it keeps the message
default. -/
def initial_pose_request : SetInitialPoseRequest :=
  { pose :=
    { header := { frame_id := "map", stamp := TimeMsg.msgDefault },
      pose :=
      { pose :=
        { position := { x := 0.0, y := 4.0, z := 0.01 },
          orientation := { x := 0.0, y := 0.0, z := -0.7071068, w := 0.7071068 } },
        covariance :=
          [0.25, 0.0, 0.0, 0.0, 0.0, 0.0,
           0.0, 0.25, 0.0, 0.0, 0.0, 0.0,
           0.0, 0.0, 0.0, 0.0, 0.0, 0.0,
           0.0, 0.0, 0.0, 0.0, 0.0, 0.0,
           0.0, 0.0, 0.0, 0.0, 0.0, 0.0,
           0.0, 0.0, 0.0, 0.0, 0.0, 0.0] } } }

/-- The hardcoded person of `publish_people` (source lines 61-68). -/
def person1 : Person :=
  { name := "person1",
    position := { x := 0.0, y := 0.0, z := 0.0 },
    velocity := { x := 0.0, y := 1.0, z := 0.0 } }

/-- The `People` message built by `publish_people` (source lines 56-69):
frame "map", the current clock reading as stamp, and the single hardcoded
person. -/
def people_message (now : TimeMsg) : People :=
  { header := { frame_id := "map", stamp := now }, people := [person1] }

/-- Loop body of `compute_path_through_poses` (source lines 84-91): a fresh
`PoseStamped()` keeps message defaults for every unassigned field (stamp,
position.z, orientation.x, orientation.y), then frame_id, position.x,
position.y, orientation.z and orientation.w are assigned. -/
def mkWaypoint (x y : ℚ) : PoseStamped :=
  { header := { frame_id := "map", stamp := TimeMsg.msgDefault },
    pose := { position := { x := x, y := y, z := 0.0 },
              orientation := { x := 0.0, y := 0.0, z := -0.7071068, w := 0.7071068 } } }

/-- The literal waypoint coordinate list of source line 84. -/
def waypoint_xy : List (ℚ × ℚ) := [(0.0, 2.0), (-0.8, 0.0)]

/-- Goal list sent to `ComputePathThroughPoses` (source lines 79-91). -/
def compute_path_goals : List PoseStamped :=
  waypoint_xy.map (fun p => mkWaypoint p.1 p.2)

/-- Observable events of one run.  `P` is the opaque path-artifact type
owned by the external planner: the node never inspects it.  `recv…` events
mark the executor delivering a completion notification to the node (the
moment the corresponding callback starts running). -/
inductive Event (P : Type) where
  | logInfo (msg : String)
  | logError (msg : String)
  | callSetInitialPose (req : SetInitialPoseRequest)
  | publishPeopleMsg (msg : People)
  | sendComputePathGoal (goals : List PoseStamped)
  | recvComputePathGoalResponse (accepted : Bool)
  | recvComputePathResult (path : P)
  | sendSmoothPathGoal (path : P)
  | recvSmoothPathGoalResponse (accepted : Bool)
  | recvSmoothPathResult (path : P)
  | publishPlan (path : P)
  | destroyNode
  | contextShutdown
deriving DecidableEq, Repr

/-- Choices of the external world during one run: how many 1-second probes
of `/set_initial_pose` fail before the service reports ready, the clock
reading used for the `People` stamp, whether each action server reports
available within its 10-second bounded wait, whether each goal is accepted,
and the `path` field of each action result. -/
structure Env (P : Type) where
  initServiceFailedProbes : Nat
  clock : TimeMsg
  pathServerAvailable : Bool
  pathGoalAccepted : Bool
  pathResult : P
  smoothServerAvailable : Bool
  smoothGoalAccepted : Bool
  smoothResult : P
deriving Repr

/-- Log line emitted once per failed probe of the startup wait loop
(source lines 17-18). -/
def waitMsg : String := "/set_initial_pose service not available, waiting..."

/-- Events of the startup wait loop of `__init__` (source lines 17-18):
one info line per failed 1-second probe, then the loop exits when the
service reports ready. -/
def init_wait_events {P : Type} : Nat → List (Event P)
  | 0 => []
  | n + 1 => Event.logInfo waitMsg :: init_wait_events n

/-- Embedding of `shutdown` (source lines 148-152). -/
def shutdown_events {P : Type} : List (Event P) :=
  [Event.logInfo "Destroying node and shutting down",
   Event.destroyNode,
   Event.contextShutdown]

/-- Embedding of `on_path_smoothed` (source lines 136-146): the callback on
the SmoothPath result future; it reads `result.path`, publishes it to
`/plan` unmodified and calls `shutdown`. -/
def on_path_smoothed {P : Type} (env : Env P) : List (Event P) :=
  Event.recvSmoothPathResult env.smoothResult ::
  Event.logInfo "Path smoothed successfully! Publishing to /plan" ::
  Event.publishPlan env.smoothResult ::
  Event.logInfo "Smoothed path published to /plan" ::
  Event.logInfo "Shutting down the node" ::
  shutdown_events

/-- Embedding of `smooth_path_response` (source lines 126-134): on
rejection log an error and return; on acceptance request the result, whose
completion runs `on_path_smoothed`. -/
def smooth_path_response {P : Type} (env : Env P) : List (Event P) :=
  Event.recvSmoothPathGoalResponse env.smoothGoalAccepted ::
  (if env.smoothGoalAccepted then
    Event.logInfo "SmoothPath goal accepted!" :: on_path_smoothed env
  else
    [Event.logError "SmoothPath goal was rejected!"])

/-- Embedding of `smooth_path` (source lines 114-124): bounded 10-second
availability wait (failure logs and returns), then the goal is built with
the given path placed unmodified in its `path` field and submitted; the
goal-response future's callback is `smooth_path_response`. -/
def smooth_path {P : Type} (env : Env P) (path : P) : List (Event P) :=
  if env.smoothServerAvailable then
    Event.logInfo "Sending path to SmoothPath" ::
    Event.sendSmoothPathGoal path ::
    smooth_path_response env
  else
    [Event.logError "SmoothPath action server not available!"]

/-- Embedding of `on_path_computed` (source lines 107-112): the callback on
the ComputePathThroughPoses result future; it reads `result.path` and hands
it unmodified to `smooth_path`. -/
def on_path_computed {P : Type} (env : Env P) : List (Event P) :=
  Event.recvComputePathResult env.pathResult ::
  Event.logInfo "Path computed successfully! Sending to SmoothPath" ::
  smooth_path env env.pathResult

/-- Embedding of `compute_path_through_poses_response` (source lines
97-105): on rejection log an error and return; on acceptance request the
result, whose completion runs `on_path_computed`. -/
def compute_path_through_poses_response {P : Type} (env : Env P) : List (Event P) :=
  Event.recvComputePathGoalResponse env.pathGoalAccepted ::
  (if env.pathGoalAccepted then
    Event.logInfo "ComputePathThroughPoses goal accepted!" :: on_path_computed env
  else
    [Event.logError "ComputePathThroughPoses goal was rejected!"])

/-- Embedding of `compute_path_through_poses` (source lines 74-95): bounded
10-second availability wait (failure logs and returns before any goal is
built), then the two-waypoint goal is submitted; the goal-response future's
callback is `compute_path_through_poses_response`. -/
def compute_path_through_poses {P : Type} (env : Env P) : List (Event P) :=
  if env.pathServerAvailable then
    Event.logInfo "Sending goal to ComputePathThroughPoses" ::
    Event.sendComputePathGoal compute_path_goals ::
    compute_path_through_poses_response env
  else
    [Event.logError "ComputePathThroughPoses action server not available!"]

/-- Embedding of `set_initial_pose` (source lines 34-54): the request is
dispatched with `call_async` and the method returns without awaiting the
response (fire-and-forget; no response callback is ever registered). -/
def set_initial_pose {P : Type} : List (Event P) :=
  [Event.callSetInitialPose initial_pose_request,
   Event.logInfo "Set initial pose called"]

/-- Embedding of `publish_people` (source lines 56-72): build the message
with the current clock reading and publish it fire-and-forget. -/
def publish_people {P : Type} (now : TimeMsg) : List (Event P) :=
  [Event.publishPeopleMsg (people_message now),
   Event.logInfo "Published people message"]

/-- Full trace of one run of the node (`__init__`, source lines 12-32,
followed by spinning until the callback chain finishes or dies): the
startup wait, then `set_initial_pose`, `publish_people`, and
`compute_path_through_poses` with its chained callbacks. -/
def run {P : Type} (env : Env P) : List (Event P) :=
  init_wait_events env.initServiceFailedProbes ++
  (set_initial_pose ++
   (publish_people env.clock ++
    compute_path_through_poses env))

/-! ### Trace analysis -/

/-- Shape of an event, forgetting its payload. -/
inductive EventKind where
  | logInfoK
  | logErrorK
  | callSetInitialPoseK
  | publishPeopleK
  | sendComputePathGoalK
  | recvComputePathGoalResponseK
  | recvComputePathResultK
  | sendSmoothPathGoalK
  | recvSmoothPathGoalResponseK
  | recvSmoothPathResultK
  | publishPlanK
  | destroyNodeK
  | contextShutdownK
deriving DecidableEq, Repr

/-- Kind of an event. -/
def Event.kind {P : Type} : Event P → EventKind
  | .logInfo _ => .logInfoK
  | .logError _ => .logErrorK
  | .callSetInitialPose _ => .callSetInitialPoseK
  | .publishPeopleMsg _ => .publishPeopleK
  | .sendComputePathGoal _ => .sendComputePathGoalK
  | .recvComputePathGoalResponse _ => .recvComputePathGoalResponseK
  | .recvComputePathResult _ => .recvComputePathResultK
  | .sendSmoothPathGoal _ => .sendSmoothPathGoalK
  | .recvSmoothPathGoalResponse _ => .recvSmoothPathGoalResponseK
  | .recvSmoothPathResult _ => .recvSmoothPathResultK
  | .publishPlan _ => .publishPlanK
  | .destroyNode => .destroyNodeK
  | .contextShutdown => .contextShutdownK

/-- Number of events of kind `k` in a trace. -/
def kindCount {P : Type} (k : EventKind) : List (Event P) → Nat
  | [] => 0
  | e :: t => (if e.kind = k then 1 else 0) + kindCount k t

/-- Scans a trace left to right and checks that no event of kind `bk`
occurs strictly before the first event of kind `ak` (events after the first
`ak`, and traces containing neither kind, are unconstrained). -/
def noneBeforeB {P : Type} (bk ak : EventKind) : List (Event P) → Bool
  | [] => true
  | e :: t =>
    if e.kind = ak then true
    else if e.kind = bk then false
    else noneBeforeB bk ak t

/-- Events that put a long-running operation in flight: submitting one of
the two action goals. -/
def opensOp {P : Type} : Event P → Bool
  | .sendComputePathGoal _ => true
  | .sendSmoothPathGoal _ => true
  | _ => false

/-- Events that take the in-flight long-running operation down: a rejected
goal response (no result will follow) or a delivered result. -/
def closesOp {P : Type} : Event P → Bool
  | .recvComputePathGoalResponse accepted => !accepted
  | .recvComputePathResult _ => true
  | .recvSmoothPathGoalResponse accepted => !accepted
  | .recvSmoothPathResult _ => true
  | _ => false

/-- Scans a trace with a busy flag and fails iff a long-running operation
is submitted while another is still in flight; `busy` says whether one is in
flight before the trace starts. -/
def atMostOneInFlight {P : Type} (busy : Bool) : List (Event P) → Bool
  | [] => true
  | e :: t =>
    if opensOp e then
      if busy then false else atMostOneInFlight true t
    else if closesOp e then atMostOneInFlight false t
    else atMostOneInFlight busy t

/-- Outbound traffic of the node: the service request, the submitted goals
and the published messages (log lines and received notifications removed). -/
def isOutbound {P : Type} : Event P → Bool
  | .callSetInitialPose _ => true
  | .publishPeopleMsg _ => true
  | .sendComputePathGoal _ => true
  | .sendSmoothPathGoal _ => true
  | .publishPlan _ => true
  | _ => false

/-- The outbound subtrace of a trace, in order. -/
def outboundEvents {P : Type} (t : List (Event P)) : List (Event P) :=
  t.filter isOutbound

/-! ### Transparency of the startup-wait log lines

The startup wait contributes `initServiceFailedProbes` copies of one info
log line at the front of every trace; the analysis functions above ignore
info logs, so they see through that block. -/

theorem kindCount_init_wait {P : Type} (k : EventKind) (hk : k ≠ .logInfoK)
    (n : Nat) (l : List (Event P)) :
    kindCount k (init_wait_events n ++ l) = kindCount k l := by
  induction n with
  | zero => simp [init_wait_events]
  | succ m ih =>
    simp only [init_wait_events, List.cons_append, kindCount, Event.kind]
    simp [Ne.symm hk, ih]

theorem noneBeforeB_init_wait {P : Type} (bk ak : EventKind)
    (hb : bk ≠ .logInfoK) (ha : ak ≠ .logInfoK)
    (n : Nat) (l : List (Event P)) :
    noneBeforeB bk ak (init_wait_events n ++ l) = noneBeforeB bk ak l := by
  induction n with
  | zero => simp [init_wait_events]
  | succ m ih =>
    simp only [init_wait_events, List.cons_append, noneBeforeB, Event.kind]
    simp [Ne.symm ha, Ne.symm hb, ih]

theorem atMostOneInFlight_init_wait {P : Type} (busy : Bool)
    (n : Nat) (l : List (Event P)) :
    atMostOneInFlight busy (init_wait_events n ++ l) = atMostOneInFlight busy l := by
  induction n with
  | zero => simp [init_wait_events]
  | succ m ih =>
    simp [init_wait_events, atMostOneInFlight, opensOp, closesOp, ih]

theorem outboundEvents_init_wait {P : Type} (n : Nat) (l : List (Event P)) :
    outboundEvents (init_wait_events n ++ l) = outboundEvents l := by
  induction n with
  | zero => simp [init_wait_events]
  | succ m ih =>
    have h : isOutbound (Event.logInfo waitMsg : Event P) = false := rfl
    simp only [init_wait_events, List.cons_append, outboundEvents, List.filter_cons, h,
      Bool.false_eq_true, if_false]
    exact ih

theorem mem_init_wait_append {P : Type} (e : Event P)
    (he : e.kind ≠ .logInfoK) (n : Nat) (l : List (Event P)) :
    e ∈ init_wait_events n ++ l ↔ e ∈ l := by
  induction n with
  | zero => simp [init_wait_events]
  | succ m ih =>
    simp only [init_wait_events, List.cons_append, List.mem_cons, ih]
    constructor
    · rintro (rfl | h)
      · exact absurd rfl he
      · exact h
    · exact Or.inr

theorem mem_init_wait_iff {P : Type} (e : Event P) (n : Nat) :
    e ∈ init_wait_events n ↔ e = Event.logInfo waitMsg ∧ n ≠ 0 := by
  induction n with
  | zero => simp [init_wait_events]
  | succ m ih =>
    simp only [init_wait_events, List.mem_cons, ih, Nat.succ_ne_zero, ne_eq,
      not_false_iff, and_true]
    constructor
    · rintro (h | ⟨h, _⟩) <;> exact h
    · exact Or.inl

/-! ### Claims -/

/-- Claim C1: across the five steps (set initial pose, publish people,
compute path, smooth path, publish plan), the step N+1 action is never
invoked before step N's completion: the people message is never published
before the initial-pose request is dispatched, the path goal is never
submitted before the people message is published, the path result is never
delivered before the goal response, the smooth goal is never submitted
before the path result has been received, the smooth result is never
delivered before the smooth goal response, and the plan is never published
before the smooth result has been received — in every run, whatever the
environment does. -/
theorem C1_step_order {P : Type} (env : Env P) :
    noneBeforeB .publishPeopleK .callSetInitialPoseK (run env) = true ∧
    noneBeforeB .sendComputePathGoalK .publishPeopleK (run env) = true ∧
    noneBeforeB .recvComputePathResultK .recvComputePathGoalResponseK (run env) = true ∧
    noneBeforeB .sendSmoothPathGoalK .recvComputePathResultK (run env) = true ∧
    noneBeforeB .recvSmoothPathResultK .recvSmoothPathGoalResponseK (run env) = true ∧
    noneBeforeB .publishPlanK .recvSmoothPathResultK (run env) = true := by
  obtain ⟨n, clock, pa, pga, pr, sa, sga, sr⟩ := env
  refine ⟨?_, ?_, ?_, ?_, ?_, ?_⟩
  all_goals
    simp only [run]
    rw [noneBeforeB_init_wait _ _ (by decide) (by decide)]
    cases pa <;> cases pga <;> cases sa <;> cases sga <;>
      simp [set_initial_pose, publish_people, compute_path_through_poses,
        compute_path_through_poses_response, on_path_computed, smooth_path,
        smooth_path_response, on_path_smoothed, shutdown_events,
        noneBeforeB, Event.kind]

/-- Claim C6: at most one long-running operation is in flight at any point
of any run: scanning the trace with a busy flag, no action goal is ever
submitted while a previously submitted goal has not yet been closed by a
rejection or a delivered result. -/
theorem C6_single_in_flight {P : Type} (env : Env P) :
    atMostOneInFlight false (run env) = true := by
  obtain ⟨n, clock, pa, pga, pr, sa, sga, sr⟩ := env
  simp only [run]
  rw [atMostOneInFlight_init_wait]
  cases pa <;> cases pga <;> cases sa <;> cases sga <;>
    simp [set_initial_pose, publish_people, compute_path_through_poses,
      compute_path_through_poses_response, on_path_computed, smooth_path,
      smooth_path_response, on_path_smoothed, shutdown_events,
      atMostOneInFlight, opensOp, closesOp]

/-- Claim C2: in every run whose ComputePathThroughPoses goal is rejected
by the remote endpoint (the server was available, the goal response says
not accepted), the node logs the rejection error, never submits a
SmoothPath goal, and never publishes to `/plan`. -/
theorem C2_rejection_halts {P : Type} (env : Env P)
    (hav : env.pathServerAvailable = true)
    (hrej : env.pathGoalAccepted = false) :
    (Event.logError "ComputePathThroughPoses goal was rejected!" : Event P) ∈ run env ∧
    kindCount .sendSmoothPathGoalK (run env) = 0 ∧
    kindCount .publishPlanK (run env) = 0 := by
  obtain ⟨n, clock, pa, pga, pr, sa, sga, sr⟩ := env
  simp only at hav hrej
  subst hav hrej
  refine ⟨?_, ?_, ?_⟩
  · simp only [run]
    rw [mem_init_wait_append _ (by simp [Event.kind])]
    simp [set_initial_pose, publish_people, compute_path_through_poses,
      compute_path_through_poses_response]
  all_goals
    simp only [run]
    rw [kindCount_init_wait _ (by decide)]
    simp [set_initial_pose, publish_people, compute_path_through_poses,
      compute_path_through_poses_response, kindCount, Event.kind]

/-- Witness for C2 at a concrete environment whose path goal is rejected. -/
theorem C2_rejection_halts_witness :
    (Event.logError "ComputePathThroughPoses goal was rejected!" : Event Nat) ∈
      run (Env.mk 0 TimeMsg.msgDefault true false 7 true true 9) ∧
    kindCount .sendSmoothPathGoalK (run (Env.mk 0 TimeMsg.msgDefault true false 7 true true 9)) = 0 ∧
    kindCount .publishPlanK (run (Env.mk 0 TimeMsg.msgDefault true false 7 true true 9)) = 0 :=
  C2_rejection_halts _ rfl rfl

/-- Claim C3: in every run where the ComputePathThroughPoses action server
does not report availability within the bounded 10-second wait, the node
logs the unavailability error and performs no later step: no path goal is
submitted, no SmoothPath goal is submitted, and nothing is published to
`/plan`. -/
theorem C3_unavailable_halts {P : Type} (env : Env P)
    (h : env.pathServerAvailable = false) :
    (Event.logError "ComputePathThroughPoses action server not available!" : Event P) ∈ run env ∧
    kindCount .sendComputePathGoalK (run env) = 0 ∧
    kindCount .sendSmoothPathGoalK (run env) = 0 ∧
    kindCount .publishPlanK (run env) = 0 := by
  obtain ⟨n, clock, pa, pga, pr, sa, sga, sr⟩ := env
  simp only at h
  subst h
  refine ⟨?_, ?_, ?_, ?_⟩
  · simp only [run]
    rw [mem_init_wait_append _ (by simp [Event.kind])]
    simp [set_initial_pose, publish_people, compute_path_through_poses]
  all_goals
    simp only [run]
    rw [kindCount_init_wait _ (by decide)]
    simp [set_initial_pose, publish_people, compute_path_through_poses,
      kindCount, Event.kind]

/-- Witness for C3 at a concrete environment whose path server never
reports available. -/
theorem C3_unavailable_halts_witness :
    (Event.logError "ComputePathThroughPoses action server not available!" : Event Nat) ∈
      run (Env.mk 2 TimeMsg.msgDefault false true 7 true true 9) ∧
    kindCount .sendComputePathGoalK (run (Env.mk 2 TimeMsg.msgDefault false true 7 true true 9)) = 0 ∧
    kindCount .sendSmoothPathGoalK (run (Env.mk 2 TimeMsg.msgDefault false true 7 true true 9)) = 0 ∧
    kindCount .publishPlanK (run (Env.mk 2 TimeMsg.msgDefault false true 7 true true 9)) = 0 :=
  C3_unavailable_halts _ rfl

/-- Claim C4: the path artifact is a pure pass-through: any SmoothPath goal
submitted in a run carries exactly the path delivered by the
ComputePathThroughPoses result, and any path published to `/plan` is
exactly the path delivered by the SmoothPath result — and this holds
polymorphically in the opaque artifact type, so the node cannot transform
the artifact at all. -/
theorem C4_pass_through {P : Type} (env : Env P) :
    (∀ p : P, Event.sendSmoothPathGoal p ∈ run env → p = env.pathResult) ∧
    (∀ p : P, Event.publishPlan p ∈ run env → p = env.smoothResult) := by
  obtain ⟨n, clock, pa, pga, pr, sa, sga, sr⟩ := env
  constructor
  all_goals
    intro p hp
    simp only [run] at hp
    rw [mem_init_wait_append _ (by simp [Event.kind])] at hp
    cases pa <;> cases pga <;> cases sa <;> cases sga <;>
      simp_all [set_initial_pose, publish_people, compute_path_through_poses,
        compute_path_through_poses_response, on_path_computed, smooth_path,
        smooth_path_response, on_path_smoothed, shutdown_events]

/-- Witness for C4 at a concrete successful environment: the goal payload 7
observed in the trace is the path result, and the published payload 9 is
the smooth result. -/
theorem C4_pass_through_witness :
    (7 : Nat) = (Env.mk 1 TimeMsg.msgDefault true true 7 true true 9).pathResult ∧
    (9 : Nat) = (Env.mk 1 TimeMsg.msgDefault true true 7 true true 9).smoothResult :=
  ⟨(C4_pass_through (Env.mk 1 TimeMsg.msgDefault true true 7 true true 9)).1 7 (by
      simp [run, init_wait_events, set_initial_pose, publish_people,
        compute_path_through_poses, compute_path_through_poses_response,
        on_path_computed, smooth_path, smooth_path_response, on_path_smoothed,
        shutdown_events]),
   (C4_pass_through (Env.mk 1 TimeMsg.msgDefault true true 7 true true 9)).2 9 (by
      simp [run, init_wait_events, set_initial_pose, publish_people,
        compute_path_through_poses, compute_path_through_poses_response,
        on_path_computed, smooth_path, smooth_path_response, on_path_smoothed,
        shutdown_events])⟩

/-- Claim C5: orderly shutdown (node destruction and context shutdown)
happens if and only if the smoothed path has been published, and in a fully
successful run the trace ends with the publish followed only by log lines,
node destruction and context shutdown — so on every failure path the node
is never destroyed and nothing follows the failure log. -/
theorem C5_shutdown_iff_publish {P : Type} (env : Env P) :
    ((∃ p, Event.publishPlan p ∈ run env) ↔ (Event.destroyNode : Event P) ∈ run env) ∧
    ((∃ p, Event.publishPlan p ∈ run env) ↔ (Event.contextShutdown : Event P) ∈ run env) ∧
    (env.pathServerAvailable = true → env.pathGoalAccepted = true →
      env.smoothServerAvailable = true → env.smoothGoalAccepted = true →
      ∃ l, run env = l ++
        [Event.publishPlan env.smoothResult,
         Event.logInfo "Smoothed path published to /plan",
         Event.logInfo "Shutting down the node",
         Event.logInfo "Destroying node and shutting down",
         Event.destroyNode,
         Event.contextShutdown]) := by
  obtain ⟨n, clock, pa, pga, pr, sa, sga, sr⟩ := env
  refine ⟨?_, ?_, ?_⟩
  · simp only [run]
    cases pa <;> cases pga <;> cases sa <;> cases sga <;>
      simp [mem_init_wait_iff, set_initial_pose, publish_people,
        compute_path_through_poses, compute_path_through_poses_response, on_path_computed,
        smooth_path, smooth_path_response, on_path_smoothed, shutdown_events]
  · simp only [run]
    cases pa <;> cases pga <;> cases sa <;> cases sga <;>
      simp [mem_init_wait_iff, set_initial_pose, publish_people,
        compute_path_through_poses, compute_path_through_poses_response, on_path_computed,
        smooth_path, smooth_path_response, on_path_smoothed, shutdown_events]
  · intro h1 h2 h3 h4
    simp only at h1 h2 h3 h4
    subst h1 h2 h3 h4
    refine ⟨init_wait_events n ++
      [Event.callSetInitialPose initial_pose_request,
       Event.logInfo "Set initial pose called",
       Event.publishPeopleMsg (people_message clock),
       Event.logInfo "Published people message",
       Event.logInfo "Sending goal to ComputePathThroughPoses",
       Event.sendComputePathGoal compute_path_goals,
       Event.recvComputePathGoalResponse true,
       Event.logInfo "ComputePathThroughPoses goal accepted!",
       Event.recvComputePathResult pr,
       Event.logInfo "Path computed successfully! Sending to SmoothPath",
       Event.logInfo "Sending path to SmoothPath",
       Event.sendSmoothPathGoal pr,
       Event.recvSmoothPathGoalResponse true,
       Event.logInfo "SmoothPath goal accepted!",
       Event.recvSmoothPathResult sr,
       Event.logInfo "Path smoothed successfully! Publishing to /plan"], ?_⟩
    simp [run, set_initial_pose, publish_people, compute_path_through_poses,
      compute_path_through_poses_response, on_path_computed, smooth_path,
      smooth_path_response, on_path_smoothed, shutdown_events]

/-- Witness for C5 at a concrete fully successful environment. -/
theorem C5_shutdown_iff_publish_witness :
    ∃ l, run (Env.mk 0 TimeMsg.msgDefault true true 7 true true (9 : Nat)) = l ++
      [Event.publishPlan 9,
       Event.logInfo "Smoothed path published to /plan",
       Event.logInfo "Shutting down the node",
       Event.logInfo "Destroying node and shutting down",
       Event.destroyNode,
       Event.contextShutdown] :=
  (C5_shutdown_iff_publish (Env.mk 0 TimeMsg.msgDefault true true 7 true true 9)).2.2
    rfl rfl rfl rfl

/-- Claim C7: every run dispatches exactly one SetInitialPose request, and
that request carries the fixed literals: frame "map", position
(0, 4, 0.01), orientation quaternion (0, 0, -0.7071068, 0.7071068), and a
row-major 6x6 covariance equal to 0.25 at the x-variance slot (index 0) and
the y-variance slot (index 7) and zero at every other of its 36 entries. -/
theorem C7_initial_pose_literals {P : Type} (env : Env P) :
    kindCount .callSetInitialPoseK (run env) = 1 ∧
    (Event.callSetInitialPose initial_pose_request : Event P) ∈ run env ∧
    initial_pose_request.pose.header.frame_id = "map" ∧
    initial_pose_request.pose.pose.pose.position = ⟨0, 4, 0.01⟩ ∧
    initial_pose_request.pose.pose.pose.orientation = ⟨0, 0, -0.7071068, 0.7071068⟩ ∧
    initial_pose_request.pose.pose.covariance =
      (List.range 36).map (fun i => if i = 0 ∨ i = 7 then (0.25 : ℚ) else 0) := by
  obtain ⟨n, clock, pa, pga, pr, sa, sga, sr⟩ := env
  refine ⟨?_, ?_, rfl, by norm_num [initial_pose_request],
    by norm_num [initial_pose_request],
    by norm_num [initial_pose_request, List.range_succ]⟩
  · simp only [run]
    rw [kindCount_init_wait _ (by decide)]
    cases pa <;> cases pga <;> cases sa <;> cases sga <;>
      simp [set_initial_pose, publish_people, compute_path_through_poses,
        compute_path_through_poses_response, on_path_computed, smooth_path,
        smooth_path_response, on_path_smoothed, shutdown_events,
        kindCount, Event.kind]
  · simp only [run]
    rw [mem_init_wait_append _ (by simp [Event.kind])]
    simp [set_initial_pose]

/-- Claim C8: whenever the path action server is available, the goal
submitted to ComputePathThroughPoses is exactly the two-waypoint list, in
literal input order — (0, 2) strictly before (-0.8, 0) — each waypoint
tagged with frame "map" and orientation quaternion
(0, 0, -0.7071068, 0.7071068); no other goal content is ever submitted and
the goal is submitted exactly once. -/
theorem C8_waypoints {P : Type} (env : Env P)
    (h : env.pathServerAvailable = true) :
    (Event.sendComputePathGoal compute_path_goals : Event P) ∈ run env ∧
    (∀ g, (Event.sendComputePathGoal g : Event P) ∈ run env → g = compute_path_goals) ∧
    compute_path_goals =
      [{ header := { frame_id := "map", stamp := TimeMsg.msgDefault },
         pose := { position := ⟨0, 2, 0⟩,
                   orientation := ⟨0, 0, -0.7071068, 0.7071068⟩ } },
       { header := { frame_id := "map", stamp := TimeMsg.msgDefault },
         pose := { position := ⟨-0.8, 0, 0⟩,
                   orientation := ⟨0, 0, -0.7071068, 0.7071068⟩ } }] ∧
    kindCount .sendComputePathGoalK (run env) = 1 := by
  obtain ⟨n, clock, pa, pga, pr, sa, sga, sr⟩ := env
  simp only at h
  subst h
  refine ⟨?_, ?_, by norm_num [compute_path_goals, waypoint_xy, mkWaypoint], ?_⟩
  · simp only [run]
    rw [mem_init_wait_append _ (by simp [Event.kind])]
    simp [set_initial_pose, publish_people, compute_path_through_poses]
  · intro g hg
    simp only [run] at hg
    rw [mem_init_wait_append _ (by simp [Event.kind])] at hg
    cases pga <;> cases sa <;> cases sga <;>
      simp_all [set_initial_pose, publish_people, compute_path_through_poses,
        compute_path_through_poses_response, on_path_computed, smooth_path,
        smooth_path_response, on_path_smoothed, shutdown_events]
  · simp only [run]
    rw [kindCount_init_wait _ (by decide)]
    cases pga <;> cases sa <;> cases sga <;>
      simp [set_initial_pose, publish_people, compute_path_through_poses,
        compute_path_through_poses_response, on_path_computed, smooth_path,
        smooth_path_response, on_path_smoothed, shutdown_events,
        kindCount, Event.kind]

/-- Witness for C8 at a concrete environment with the path server
available. -/
theorem C8_waypoints_witness :
    (Event.sendComputePathGoal compute_path_goals : Event Nat) ∈
      run (Env.mk 0 TimeMsg.msgDefault true true 7 true true 9) ∧
    kindCount .sendComputePathGoalK
      (run (Env.mk 0 TimeMsg.msgDefault true true 7 true true 9)) = 1 :=
  ⟨(C8_waypoints (Env.mk 0 TimeMsg.msgDefault true true 7 true true 9) rfl).1,
   (C8_waypoints (Env.mk 0 TimeMsg.msgDefault true true 7 true true 9) rfl).2.2.2⟩

/-- Claim C9: every run publishes exactly one People message,
fire-and-forget, containing the single person "person1" at the origin with
velocity (0, 1, 0), in an envelope with frame "map" and the current clock
reading as stamp. -/
theorem C9_people_message {P : Type} (env : Env P) :
    kindCount .publishPeopleK (run env) = 1 ∧
    (Event.publishPeopleMsg (people_message env.clock) : Event P) ∈ run env ∧
    (people_message env.clock).header.frame_id = "map" ∧
    (people_message env.clock).header.stamp = env.clock ∧
    (people_message env.clock).people =
      [{ name := "person1", position := ⟨0, 0, 0⟩, velocity := ⟨0, 1, 0⟩ }] := by
  obtain ⟨n, clock, pa, pga, pr, sa, sga, sr⟩ := env
  refine ⟨?_, ?_, rfl, rfl, by norm_num [people_message, person1]⟩
  · simp only [run]
    rw [kindCount_init_wait _ (by decide)]
    cases pa <;> cases pga <;> cases sa <;> cases sga <;>
      simp [set_initial_pose, publish_people, compute_path_through_poses,
        compute_path_through_poses_response, on_path_computed, smooth_path,
        smooth_path_response, on_path_smoothed, shutdown_events,
        kindCount, Event.kind]
  · simp only [run]
    rw [mem_init_wait_append _ (by simp [Event.kind])]
    simp [set_initial_pose, publish_people]

/-- Claim C10: the orchestrator is deterministic: two runs that get the
same clock reading and the same external responses (server availability,
acceptance decisions, result payloads) produce the same outbound traffic —
the same service request, submitted goals and published messages, in the
same order with the same content — regardless of how long the startup wait
polled. -/
theorem C10_deterministic {P : Type} (e1 e2 : Env P)
    (hc : e1.clock = e2.clock)
    (h1 : e1.pathServerAvailable = e2.pathServerAvailable)
    (h2 : e1.pathGoalAccepted = e2.pathGoalAccepted)
    (h3 : e1.pathResult = e2.pathResult)
    (h4 : e1.smoothServerAvailable = e2.smoothServerAvailable)
    (h5 : e1.smoothGoalAccepted = e2.smoothGoalAccepted)
    (h6 : e1.smoothResult = e2.smoothResult) :
    outboundEvents (run e1) = outboundEvents (run e2) := by
  obtain ⟨n1, c1, pa1, pga1, pr1, sa1, sga1, sr1⟩ := e1
  obtain ⟨n2, c2, pa2, pga2, pr2, sa2, sga2, sr2⟩ := e2
  simp only at hc h1 h2 h3 h4 h5 h6
  subst hc h1 h2 h3 h4 h5 h6
  simp only [run]
  rw [outboundEvents_init_wait, outboundEvents_init_wait]
  simp [compute_path_through_poses, compute_path_through_poses_response,
    on_path_computed, smooth_path, smooth_path_response, on_path_smoothed,
    shutdown_events]

/-- Witness for C10: two runs differing only in the number of failed
startup probes have the same outbound traffic. -/
theorem C10_deterministic_witness :
    outboundEvents (run (Env.mk 0 TimeMsg.msgDefault true true 7 true true (9 : Nat))) =
    outboundEvents (run (Env.mk 3 TimeMsg.msgDefault true true 7 true true 9)) :=
  C10_deterministic _ _ rfl rfl rfl rfl rfl rfl rfl

end TrajGen
